import Mathlib

/-!
Verification of the Profile & Pricing Access Shim.

The repository holds two variants of the same four-function wrapper around a
backend-as-a-service client:

* `supabaseService.ts` (suffix `Ts` below): coerces optional fields to safe
  defaults, orders pricing plans by name, wraps every operation in try/catch.
* `part_000` (suffix `P0` below): passes raw values through, orders pricing
  plans by monthly price, and its `fetchUserProfile` has no try/catch.

Collaborator calls are modelled as explicit inputs: an `Except Err a` value
where `Except.error` stands for the awaited call throwing an exception, and
`Except.ok` for the value it resolves to.  Side effects (calls to the shared
error reporter `handlerApiError`, console logging, whether the profile query
was issued) are returned in an explicit `Effects` record.
-/

/-- An opaque error value thrown or returned by a collaborator. -/
structure Err where
  code : Nat
  deriving DecidableEq

/-- A row of the joined `pricing_features(id, name)` relation, as delivered
by the backend (fields may be absent). -/
structure PricingFeature where
  id : Option String
  name : Option String
  deriving DecidableEq

/-- A `pricing_plans` row as delivered by the backend: every selected column
may be absent (SQL NULL / missing field). -/
structure PlanRow where
  id : Option String
  name : Option String
  slug : Option String
  description : Option String
  cta : Option String
  most_popular : Option Bool
  is_featured : Option Bool
  price_monthly : Option Int
  price_yearly : Option Int
  pricing_features : Option (List PricingFeature)
  deriving DecidableEq

/-- The fully coerced `PricingPlan` produced by the `supabaseService.ts`
variant of `fetchPricingPlans`. -/
structure PricingPlan where
  id : String
  name : String
  slug : String
  description : String
  cta : String
  most_popular : Bool
  is_featured : Bool
  pricing_features : List PricingFeature
  price_monthly : Int
  price_yearly : Int
  deriving DecidableEq

/-- JS truthiness coercion `x ? String(x) : dflt` for an optional string:
null, undefined and the empty string are falsy. -/
def coerceStr (v : Option String) (dflt : String) : String :=
  match v with
  | some s => if s = "" then dflt else s
  | none => dflt

/-- JS `String(x)` where `x` may be null: `String(null)` is the string
consisting of the word null. -/
def jsString (v : Option String) : String :=
  match v with
  | some s => s
  | none => "null"

/-- JS `x ? String(x) : undefined` for an optional string: the empty string
is falsy and becomes undefined. -/
def truthyOptStr (v : Option String) : Option String :=
  match v with
  | some s => if s = "" then none else some s
  | none => none

/-- The element mapping of `supabaseService.ts` `fetchPricingPlans`
(lines 50-61): every absent field is coerced to a safe default. -/
def planOfRow (r : PlanRow) : PricingPlan :=
  { id := coerceStr r.id ("Unknown")
    , name := coerceStr r.name ("Unknown")
    , slug := coerceStr r.slug ("Unknown")
    , description := coerceStr r.description ("No description available")
    , cta := coerceStr r.cta ("No CTA available")
    , most_popular := r.most_popular.getD false
    , is_featured := r.is_featured.getD false
    , pricing_features := r.pricing_features.getD []
    , price_monthly := r.price_monthly.getD 0
    , price_yearly := r.price_yearly.getD 0 }

/-- Counters for the observable side effects of one operation call. -/
structure Effects where
  handlerApiErrorCalls : Nat
  consoleErrorCalls : Nat
  consoleWarnCalls : Nat
  consoleLogCalls : Nat
  profileQueriesIssued : Nat
  deriving DecidableEq

/-- No side effects. -/
def eff0 : Effects := ⟨0, 0, 0, 0, 0⟩

/-- The column a pricing-plans query orders by: `name` in
`supabaseService.ts`, `price_monthly` in `part_000`. -/
inductive OrderKey where
  | name
  | priceMonthly
  deriving DecidableEq

/-- The pricing-plans query each variant builds: optional `eq(is_featured, b)`
filter, order column (always ascending) and row limit. -/
structure PlanQuery where
  eqFeatured : Option Bool
  orderKey : OrderKey
  limit : Nat
  deriving DecidableEq

/-- The options object taken by `fetchPricingPlans` in both variants. -/
structure FetchPlansOptions where
  limit : Option Nat
  is_featured : Option Bool
  deriving DecidableEq

/-- Query built by `supabaseService.ts` `fetchPricingPlans`: `limit` defaults
to 1000 and `is_featured` to `false` via destructuring defaults; after the
default the `typeof is_featured` check on line 29 always holds, so the
equality filter is always applied.  Orders by `name` ascending. -/
def pricingQueryTs (opts : FetchPlansOptions) : PlanQuery :=
  { eqFeatured := some (opts.is_featured.getD false)
    , orderKey := OrderKey.name
    , limit := opts.limit.getD 1000 }

/-- Query built by `part_000` `fetchPricingPlans`: same defaults applied with
the nullish assignment on lines 15-16, so the `typeof` check on line 25
always holds and the equality filter is always applied.  Orders by
`price_monthly` ascending. -/
def pricingQueryP0 (opts : FetchPlansOptions) : PlanQuery :=
  { eqFeatured := some (opts.is_featured.getD false)
    , orderKey := OrderKey.priceMonthly
    , limit := opts.limit.getD 1000 }

/-- Lexicographic comparison of character lists by code point. -/
def charListLe : List Char → List Char → Bool
  | [], _ => true
  | _ :: _, [] => false
  | a :: as, b :: bs =>
    if a.toNat < b.toNat then true
    else if b.toNat < a.toNat then false
    else charListLe as bs

/-- Lexicographic string comparison by code point. -/
def strLeB (x y : String) : Bool := charListLe x.data y.data

/-- Ascending comparison of optional strings, absent values last. -/
def optStrLe (a b : Option String) : Bool :=
  match a, b with
  | none, none => true
  | none, some _ => false
  | some _, none => true
  | some x, some y => strLeB x y

/-- Ascending comparison of optional integers, absent values last. -/
def optIntLe (a b : Option Int) : Bool :=
  match a, b with
  | none, none => true
  | none, some _ => false
  | some _, none => true
  | some x, some y => decide (x ≤ y)

/-- Row comparison induced by the order column. -/
def rowLe (k : OrderKey) (a b : PlanRow) : Bool :=
  match k with
  | OrderKey.name => optStrLe a.name b.name
  | OrderKey.priceMonthly => optIntLe a.price_monthly b.price_monthly

/-- Insertion into a list sorted by `le`. -/
def insertLe (le : PlanRow → PlanRow → Bool) (x : PlanRow) :
    List PlanRow → List PlanRow
  | [] => [x]
  | y :: ys => if le x y then x :: y :: ys else y :: insertLe le x ys

/-- Insertion sort by `le`. -/
def sortByLe (le : PlanRow → PlanRow → Bool) : List PlanRow → List PlanRow
  | [] => []
  | x :: xs => insertLe le x (sortByLe le xs)

/-- Modelled from the spec: the backend query client (section 6) supports
equality filtering, ordering by a named column ascending, and row-count
limiting.  `runPlansQuery` evaluates a pricing-plans query against the
backend table. -/
def runPlansQuery (q : PlanQuery) (db : List PlanRow) : List PlanRow :=
  let filtered := match q.eqFeatured with
    | some b => db.filter (fun r => decide (r.is_featured = some b))
    | none => db
  (sortByLe (rowLe q.orderKey) filtered).take q.limit

/-- The data payload of a pricing-plans query response as seen by
`supabaseService.ts`, which checks `Array.isArray` explicitly: the payload
may be null, a non-array value, or an array of rows. -/
inductive DataPayload where
  | dnull
  | dnonarray
  | darr (rows : List PlanRow)
  deriving DecidableEq

/-- A resolved pricing-plans query response (`supabaseService.ts` view). -/
structure QueryOutcome where
  data : DataPayload
  error : Option Err
  deriving DecidableEq

/-- A resolved pricing-plans query response as typed in `part_000`:
the data field is an array or null. -/
structure QueryOutcomeB where
  data : Option (List PlanRow)
  error : Option Err
  deriving DecidableEq

/-- `supabaseService.ts` `fetchPricingPlans` (lines 12-66).  `backend` maps
the built query to the awaited response; `Except.error` models the await
throwing.  A returned query error or a malformed payload is logged with
`console.error` and yields the empty list; only a thrown exception reaches
the catch block, which calls `handlerApiError`. -/
def fetchPricingPlansTs (opts : FetchPlansOptions)
    (backend : PlanQuery → Except Err QueryOutcome) :
    List PricingPlan × Effects :=
  match backend (pricingQueryTs opts) with
  | Except.error _ => ([], { eff0 with handlerApiErrorCalls := 1 })
  | Except.ok r =>
    if r.error.isSome then
      ([], { eff0 with consoleErrorCalls := 1 })
    else
      match r.data with
      | DataPayload.darr rows => (rows.map planOfRow, eff0)
      | _ => ([], { eff0 with consoleErrorCalls := 1 })

/-- `part_000` `fetchPricingPlans` (lines 7-38).  A returned query error is
thrown (line 31) and caught by the function's own catch block, which calls
`handlerApiError` and returns the empty list; otherwise the raw rows are
returned with `data` defaulted to the empty list when null. -/
def fetchPricingPlansP0 (opts : FetchPlansOptions)
    (backend : PlanQuery → Except Err QueryOutcomeB) :
    List PlanRow × Effects :=
  match backend (pricingQueryP0 opts) with
  | Except.error _ => ([], { eff0 with handlerApiErrorCalls := 1 })
  | Except.ok r =>
    if r.error.isSome then
      ([], { eff0 with handlerApiErrorCalls := 1 })
    else
      (r.data.getD [], eff0)

/-- Modelled from the spec: an honest backend for the `supabaseService.ts`
variant, answering the query from a table `db` without error. -/
def honestBackendTs (db : List PlanRow) :
    PlanQuery → Except Err QueryOutcome :=
  fun q => Except.ok ⟨DataPayload.darr (runPlansQuery q db), none⟩

/-- Modelled from the spec: an honest backend for the `part_000` variant. -/
def honestBackendP0 (db : List PlanRow) :
    PlanQuery → Except Err QueryOutcomeB :=
  fun q => Except.ok ⟨some (runPlansQuery q db), none⟩

/-- The authenticated user as returned by the auth collaborator. -/
structure User where
  id : String
  deriving DecidableEq

/-- The resolved value of `supabase.auth.getUser()`: a possibly absent user
together with a possibly absent error. -/
structure GetUserOut where
  user : Option User
  error : Option Err
  deriving DecidableEq

/-- A row of the joined `pricing_plans(...)` relation on a profile row, as
delivered by the backend (fields may be absent).  `description` is selected
only by the `supabaseService.ts` variant; `part_000` simply never reads it. -/
structure PlanRelRow where
  id : Option String
  name : Option String
  slug : Option String
  description : Option String
  price_monthly : Option Int
  price_yearly : Option Int
  deriving DecidableEq

/-- The shape of the joined `pricing_plans` relation on a profile row: the
backend may deliver an array, a single object, or null. -/
inductive PPRel where
  | arr (l : List PlanRelRow)
  | obj (r : PlanRelRow)
  | nullv
  deriving DecidableEq

/-- A `profiles` row as delivered by the backend. -/
structure ProfileRow where
  id : Option String
  name : Option String
  first_name : Option String
  last_name : Option String
  email : Option String
  picture : Option String
  is_subscribed : Option Bool
  plan_id : Option String
  stripe_customer_id : Option String
  pricing_plans : PPRel
  deriving DecidableEq

/-- The resolved value of the single-row profile query: a possibly absent
row together with a possibly absent error. -/
structure ProfileQueryOut where
  data : Option ProfileRow
  error : Option Err
  deriving DecidableEq

/-- A coerced plan entry of the profile returned by `supabaseService.ts`. -/
structure ProfilePlan where
  id : String
  name : String
  slug : String
  description : String
  price_monthly : Int
  price_yearly : Int
  deriving DecidableEq

/-- The coerced `Profile` returned by `supabaseService.ts`. -/
structure Profile where
  id : String
  name : String
  first_name : Option String
  last_name : Option String
  email : String
  picture : Option String
  is_subscribed : Bool
  plan_id : Option String
  stripe_customer_id : String
  pricing_plans : List ProfilePlan
  deriving DecidableEq

/-- A raw plan entry of the profile returned by `part_000` (fields passed
through unchanged). -/
structure RawProfilePlan where
  id : Option String
  name : Option String
  slug : Option String
  price_monthly : Option Int
  price_yearly : Option Int
  deriving DecidableEq

/-- The raw profile returned by `part_000` (fields passed through
unchanged). -/
structure RawProfile where
  id : Option String
  name : Option String
  first_name : Option String
  last_name : Option String
  email : Option String
  picture : Option String
  is_subscribed : Option Bool
  plan_id : Option String
  stripe_customer_id : Option String
  pricing_plans : List RawProfilePlan
  deriving DecidableEq

/-- The per-plan mapping inside `supabaseService.ts` `fetchUserProfile`
(lines 113-120). -/
def profilePlanOfRel (p : PlanRelRow) : ProfilePlan :=
  { id := jsString p.id
    , name := jsString p.name
    , slug := jsString p.slug
    , description := coerceStr p.description ("No description available")
    , price_monthly := p.price_monthly.getD 0
    , price_yearly := p.price_yearly.getD 0 }

/-- The `Array.isArray` normalization of `supabaseService.ts` lines 98-100:
an array stays itself, anything else (a single object, or null) is wrapped
in a one-element array.  Elements are `Option`s because wrapping a null
relation yields an array holding null. -/
def normalizeRel (rel : PPRel) : List (Option PlanRelRow) :=
  match rel with
  | PPRel.arr l => l.map some
  | PPRel.obj r => [some r]
  | PPRel.nullv => [none]

/-- The TypeError raised by reading a field of null inside the `.map`
callback on line 113 of `supabaseService.ts`. -/
def typeErr : Err := ⟨1⟩

/-- The `.map` over the normalized relation (`supabaseService.ts`
lines 113-120): reading a field of a null element throws. -/
def mapRelPlans : List (Option PlanRelRow) → Except Err (List ProfilePlan)
  | [] => Except.ok []
  | none :: _ => Except.error typeErr
  | some p :: rest =>
    match mapRelPlans rest with
    | Except.ok l => Except.ok (profilePlanOfRel p :: l)
    | Except.error e => Except.error e

/-- The coerced profile object built on lines 103-121 of
`supabaseService.ts`, given the already-mapped plan list. -/
def profileOfRowTs (row : ProfileRow) (plans : List ProfilePlan) : Profile :=
  { id := jsString row.id
    , name := jsString row.name
    , first_name := truthyOptStr row.first_name
    , last_name := truthyOptStr row.last_name
    , email := jsString row.email
    , picture := truthyOptStr row.picture
    , is_subscribed := row.is_subscribed.getD false
    , plan_id := truthyOptStr row.plan_id
    , stripe_customer_id := jsString row.stripe_customer_id
    , pricing_plans := plans }

/-- The body of the `try` block of `supabaseService.ts` `fetchUserProfile`
(lines 70-123).  `profileQuery` maps the queried user id to the awaited
single-row response; an `Except.error` result models a thrown exception
escaping the try block. -/
def fetchUserProfileTsBody (getUserResp : Except Err GetUserOut)
    (profileQuery : String → Except Err ProfileQueryOut) :
    Except Err (Option Profile) × Effects :=
  match getUserResp with
  | Except.error e => (Except.error e, eff0)
  | Except.ok g =>
    match g.error, g.user with
    | some _, _ => (Except.ok none, { eff0 with consoleWarnCalls := 1 })
    | none, none => (Except.ok none, { eff0 with consoleWarnCalls := 1 })
    | none, some u =>
      match profileQuery u.id with
      | Except.error e => (Except.error e, { eff0 with profileQueriesIssued := 1 })
      | Except.ok pr =>
        match pr.error, pr.data with
        | some _, _ =>
          (Except.ok none, { eff0 with profileQueriesIssued := 1, consoleErrorCalls := 1 })
        | none, none =>
          (Except.ok none, { eff0 with profileQueriesIssued := 1, consoleErrorCalls := 1 })
        | none, some row =>
          match mapRelPlans (normalizeRel row.pricing_plans) with
          | Except.error e =>
            (Except.error e, { eff0 with profileQueriesIssued := 1, consoleLogCalls := 1 })
          | Except.ok plans =>
            (Except.ok (some (profileOfRowTs row plans)),
             { eff0 with profileQueriesIssued := 1, consoleLogCalls := 1 })

/-- `supabaseService.ts` `fetchUserProfile` (lines 69-128): the try body with
its catch block, which reports any thrown error via `handlerApiError` and
returns null, so the function itself never throws. -/
def fetchUserProfileTs (getUserResp : Except Err GetUserOut)
    (profileQuery : String → Except Err ProfileQueryOut) :
    Option Profile × Effects :=
  match fetchUserProfileTsBody getUserResp profileQuery with
  | (Except.ok v, eff) => (v, eff)
  | (Except.error _, eff) =>
    (none, { eff with handlerApiErrorCalls := eff.handlerApiErrorCalls + 1 })

/-- The per-plan mapping inside `part_000` `fetchUserProfile`
(lines 81-87): fields passed through unchanged. -/
def rawProfilePlanOfRel (p : PlanRelRow) : RawProfilePlan :=
  { id := p.id
    , name := p.name
    , slug := p.slug
    , price_monthly := p.price_monthly
    , price_yearly := p.price_yearly }

/-- The raw profile object built on lines 70-89 of `part_000`: a non-array
joined relation (single object or null) becomes the empty list. -/
def rawProfileOfRow (row : ProfileRow) : RawProfile :=
  { id := row.id
    , name := row.name
    , first_name := row.first_name
    , last_name := row.last_name
    , email := row.email
    , picture := row.picture
    , is_subscribed := row.is_subscribed
    , plan_id := row.plan_id
    , stripe_customer_id := row.stripe_customer_id
    , pricing_plans := match row.pricing_plans with
      | PPRel.arr l => l.map rawProfilePlanOfRel
      | _ => [] }

/-- `part_000` `fetchUserProfile` (lines 40-92).  The function has no
try/catch, so a thrown collaborator error (an `Except.error` response)
propagates to the caller: the result is itself an `Except`. -/
def fetchUserProfileP0 (getUserResp : Except Err GetUserOut)
    (profileQuery : String → Except Err ProfileQueryOut) :
    Except Err (Option RawProfile) × Effects :=
  match getUserResp with
  | Except.error e => (Except.error e, eff0)
  | Except.ok g =>
    if g.error.isSome then (Except.ok none, eff0)
    else
      match g.user with
      | none => (Except.ok none, eff0)
      | some u =>
        match profileQuery u.id with
        | Except.error e => (Except.error e, { eff0 with profileQueriesIssued := 1 })
        | Except.ok pr =>
          if pr.error.isSome then
            (Except.ok none, { eff0 with profileQueriesIssued := 1, consoleErrorCalls := 1 })
          else
            match pr.data with
            | none => (Except.ok none, { eff0 with profileQueriesIssued := 1 })
            | some row =>
              (Except.ok (some (rawProfileOfRow row)),
               { eff0 with profileQueriesIssued := 1 })

/-- The outcome object returned by the auth actions: an optional error. -/
structure AuthOutcome where
  error : Option Err
  deriving DecidableEq

/-- `supabaseService.ts` `loginWithGithub` (lines 131-144): the resolved
`signInWithOAuth` error is returned in the outcome; a thrown error is
reported via `handlerApiError` and returned in the outcome. -/
def loginWithGithubTs (resp : Except Err (Option Err)) : AuthOutcome × Effects :=
  match resp with
  | Except.ok e => (⟨e⟩, eff0)
  | Except.error ex => (⟨some ex⟩, { eff0 with handlerApiErrorCalls := 1 })

/-- `supabaseService.ts` `loginWithLinkedIn` (lines 147-160): same shape as
`loginWithGithub`, with provider string linkedin. -/
def loginWithLinkedInTs (resp : Except Err (Option Err)) : AuthOutcome × Effects :=
  match resp with
  | Except.ok e => (⟨e⟩, eff0)
  | Except.error ex => (⟨some ex⟩, { eff0 with handlerApiErrorCalls := 1 })

/-- `supabaseService.ts` `logout` (lines 163-171). -/
def logoutTs (resp : Except Err (Option Err)) : AuthOutcome × Effects :=
  match resp with
  | Except.ok e => (⟨e⟩, eff0)
  | Except.error ex => (⟨some ex⟩, { eff0 with handlerApiErrorCalls := 1 })

/-- `part_000` `loginWithLinkedIn` (lines 94-105, provider linkedin_oidc):
the result of `signInWithOAuth` is discarded and nothing is returned; a
thrown error is reported via `handlerApiError`, still returning nothing. -/
def loginWithLinkedInP0 (resp : Except Err (Option Err)) :
    Option AuthOutcome × Effects :=
  match resp with
  | Except.ok _ => (none, eff0)
  | Except.error _ => (none, { eff0 with handlerApiErrorCalls := 1 })

/-- `part_000` `loginWithGithub` (lines 107-118): same shape as its
`loginWithLinkedIn`. -/
def loginWithGithubP0 (resp : Except Err (Option Err)) :
    Option AuthOutcome × Effects :=
  match resp with
  | Except.ok _ => (none, eff0)
  | Except.error _ => (none, { eff0 with handlerApiErrorCalls := 1 })

/-- `part_000` `logout` (lines 120-127): returns an outcome on the
non-throwing path, but nothing (undefined) when an exception was caught. -/
def logoutP0 (resp : Except Err (Option Err)) : Option AuthOutcome × Effects :=
  match resp with
  | Except.ok e => (some ⟨e⟩, eff0)
  | Except.error _ => (none, { eff0 with handlerApiErrorCalls := 1 })

/-- A concrete collaborator error. -/
def e0 : Err := ⟨0⟩

/-- A concrete authenticated user. -/
def u0 : User := { id := ("user-1") }

/-- A pricing-plans row with every selected column absent. -/
def blankRow : PlanRow :=
  { id := none, name := none, slug := none, description := none, cta := none
    , most_popular := none, is_featured := none, price_monthly := none
    , price_yearly := none, pricing_features := none }

/-- Featured plan named a, monthly price 50. -/
def rowA : PlanRow :=
  { blankRow with name := some ("a"), price_monthly := some 50, is_featured := some true }

/-- Featured plan named b, monthly price 40. -/
def rowB : PlanRow :=
  { blankRow with name := some ("b"), price_monthly := some 40, is_featured := some true }

/-- Featured plan named c, monthly price 30. -/
def rowC : PlanRow :=
  { blankRow with name := some ("c"), price_monthly := some 30, is_featured := some true }

/-- Featured plan named d, monthly price 20. -/
def rowD : PlanRow :=
  { blankRow with name := some ("d"), price_monthly := some 20, is_featured := some true }

/-- Featured plan named e, monthly price 10. -/
def rowE : PlanRow :=
  { blankRow with name := some ("e"), price_monthly := some 10, is_featured := some true }

/-- A backend table of five featured plans whose name order is the reverse
of their price order. -/
def db5 : List PlanRow := [rowA, rowB, rowC, rowD, rowE]

/-- A featured plan named f. -/
def featRow : PlanRow :=
  { blankRow with name := some ("f"), is_featured := some true }

/-- A non-featured plan named p. -/
def plainRow : PlanRow :=
  { blankRow with name := some ("p"), is_featured := some false }

/-- A backend table holding one featured and one non-featured plan. -/
def db2 : List PlanRow := [featRow, plainRow]

/-- A non-featured plan whose description is absent. -/
def cRow8 : PlanRow :=
  { blankRow with name := some ("basic"), is_featured := some false }

/-- A profile row with every column absent and a null joined relation. -/
def blankProfileRow : ProfileRow :=
  { id := none, name := none, first_name := none, last_name := none
    , email := none, picture := none, is_subscribed := none, plan_id := none
    , stripe_customer_id := none, pricing_plans := PPRel.nullv }

/-- A concrete joined-relation plan row. -/
def cRelPlan : PlanRelRow :=
  { id := some ("p1"), name := some ("Pro"), slug := some ("pro")
    , description := none, price_monthly := some 10, price_yearly := some 100 }

/-- A concrete profile row whose joined relation is a single object. -/
def cObjRow : ProfileRow :=
  { blankProfileRow with id := some ("u1"), pricing_plans := PPRel.obj cRelPlan }

/-- Membership after insertion comes from the inserted element or the list. -/
theorem mem_insertLe (le : PlanRow → PlanRow → Bool) (x a : PlanRow) :
    ∀ l : List PlanRow, a ∈ insertLe le x l → a = x ∨ a ∈ l := by
  intro l
  induction l with
  | nil =>
    intro h
    simp only [insertLe, List.mem_singleton] at h
    exact Or.inl h
  | cons y ys ih =>
    intro h
    simp only [insertLe] at h
    by_cases hc : le x y = true
    · rw [if_pos hc] at h
      rcases List.mem_cons.mp h with h1 | h1
      · exact Or.inl h1
      · exact Or.inr h1
    · rw [if_neg hc] at h
      rcases List.mem_cons.mp h with h1 | h1
      · exact Or.inr (List.mem_cons.mpr (Or.inl h1))
      · rcases ih h1 with h2 | h2
        · exact Or.inl h2
        · exact Or.inr (List.mem_cons.mpr (Or.inr h2))

/-- Insertion sort permutes membership downward. -/
theorem mem_sortByLe (le : PlanRow → PlanRow → Bool) (a : PlanRow) :
    ∀ l : List PlanRow, a ∈ sortByLe le l → a ∈ l := by
  intro l
  induction l with
  | nil => intro h; simp [sortByLe] at h
  | cons x xs ih =>
    intro h
    simp only [sortByLe] at h
    rcases mem_insertLe le x a (sortByLe le xs) h with h2 | h2
    · exact h2 ▸ List.mem_cons_self x xs
    · exact List.mem_cons_of_mem x (ih h2)

/-- Bound on the number of rows a pricing-plans query returns. -/
theorem runPlansQuery_length (q : PlanQuery) (db : List PlanRow) :
    (runPlansQuery q db).length ≤ q.limit := by
  simp only [runPlansQuery]
  exact List.length_take_le _ _

/-- Claim C1, code evidence: `part_000` `fetchUserProfile` has no try/catch,
so when `auth.getUser()` throws, the error propagates to the caller, against
the never-throw-past-the-boundary contract; the `supabaseService.ts` variant
of the same function converts the throw into a null result instead. -/
theorem fetchUserProfileP0_propagates_thrown_error :
    (fetchUserProfileP0 (Except.error e0) (fun _ => Except.ok ⟨none, none⟩)).fst
      = Except.error e0 ∧
    fetchUserProfileTs (Except.error e0) (fun _ => Except.ok ⟨none, none⟩)
      = (none, { eff0 with handlerApiErrorCalls := 1 }) := ⟨rfl, rfl⟩

/-- Claim C2, amended: `supabaseService.ts` normalizes a single-object joined
relation into a one-element collection, while `part_000` turns any non-array
relation into the empty collection. -/
theorem single_object_relation_normalized (u : User) (row : ProfileRow)
    (p : PlanRelRow) :
    (fetchUserProfileTs (Except.ok ⟨some u, none⟩)
        (fun _ => Except.ok ⟨some { row with pricing_plans := PPRel.obj p }, none⟩)).fst
      = some (profileOfRowTs { row with pricing_plans := PPRel.obj p }
          [profilePlanOfRel p]) ∧
    (rawProfileOfRow { row with pricing_plans := PPRel.obj p }).pricing_plans
      = [] := ⟨rfl, rfl⟩

/-- Claim C2, counterexample: on a profile row whose joined relation is a
single object, `part_000` `fetchUserProfile` returns a profile whose plan
collection is empty, not a one-element collection. -/
theorem single_object_relation_dropped_p0 :
    cObjRow.pricing_plans = PPRel.obj cRelPlan ∧
    (fetchUserProfileP0 (Except.ok ⟨some u0, none⟩)
        (fun _ => Except.ok ⟨some cObjRow, none⟩)).fst
      = Except.ok (some (rawProfileOfRow cObjRow)) ∧
    (rawProfileOfRow cObjRow).pricing_plans.length = 0 := ⟨rfl, rfl, rfl⟩

/-- Claim C3, amended: when the caller omits `is_featured` both variants
default it to `false` and always apply the equality filter, so the backend
query carries an `is_featured = false` filter and every returned row has
`is_featured = false`; unfiltered results are unreachable. -/
theorem omitted_is_featured_defaults_to_false_filter (lim : Option Nat)
    (db : List PlanRow) :
    (pricingQueryTs ⟨lim, none⟩).eqFeatured = some false ∧
    (pricingQueryP0 ⟨lim, none⟩).eqFeatured = some false ∧
    ∀ r ∈ runPlansQuery (pricingQueryTs ⟨lim, none⟩) db,
      r.is_featured = some false := by
  refine ⟨rfl, rfl, ?_⟩
  intro r hr
  have hr2 : r ∈ (sortByLe (rowLe OrderKey.name)
      (db.filter (fun s => decide (s.is_featured = some false)))).take
        (lim.getD 1000) := hr
  have hr3 := mem_sortByLe _ r _ (List.take_subset _ _ hr2)
  have hr4 := List.mem_filter.mp hr3
  exact of_decide_eq_true hr4.2

/-- Claim C3, witness for the amended theorem at a concrete table. -/
theorem omitted_is_featured_witness :
    (pricingQueryTs ⟨none, none⟩).eqFeatured = some false ∧
    plainRow.is_featured = some false :=
  ⟨(omitted_is_featured_defaults_to_false_filter none db2).1,
   (omitted_is_featured_defaults_to_false_filter none db2).2.2 plainRow (by decide)⟩

/-- Claim C3, counterexample: with `is_featured` omitted and a table holding
one featured and one non-featured plan, both variants return only the
non-featured plan, so not all plans are returned and a filter was applied. -/
theorem omitted_is_featured_filters_out_featured :
    (fetchPricingPlansTs ⟨none, none⟩ (honestBackendTs db2)).fst
      = [planOfRow plainRow] ∧
    (fetchPricingPlansP0 ⟨none, none⟩ (honestBackendP0 db2)).fst = [plainRow] ∧
    featRow.is_featured = some true := ⟨by decide, by decide, rfl⟩

/-- Claim C4, amended: on a returned query error both variants return the
empty sequence; `part_000` invokes `handlerApiError` exactly once, while
`supabaseService.ts` logs with `console.error` and never calls
`handlerApiError` on that path. -/
theorem query_error_returns_empty (optsT optsB : FetchPlansOptions) (e : Err)
    (dp : DataPayload) (dl : Option (List PlanRow)) :
    fetchPricingPlansTs optsT (fun _ => Except.ok ⟨dp, some e⟩)
      = ([], { eff0 with consoleErrorCalls := 1 }) ∧
    fetchPricingPlansP0 optsB (fun _ => Except.ok ⟨dl, some e⟩)
      = ([], { eff0 with handlerApiErrorCalls := 1 }) := ⟨rfl, rfl⟩

/-- Claim C4, counterexample: when the backend query yields an error,
`supabaseService.ts` `fetchPricingPlans` returns the empty sequence but the
shared error reporter is invoked zero times, not exactly once. -/
theorem query_error_no_reporter_call_ts :
    (fetchPricingPlansTs ⟨none, none⟩
        (fun _ => Except.ok ⟨DataPayload.dnull, some e0⟩)).fst = [] ∧
    (fetchPricingPlansTs ⟨none, none⟩
        (fun _ => Except.ok ⟨DataPayload.dnull, some e0⟩)).snd.handlerApiErrorCalls
      = 0 ∧
    ¬ ((fetchPricingPlansTs ⟨none, none⟩
        (fun _ => Except.ok ⟨DataPayload.dnull, some e0⟩)).snd.handlerApiErrorCalls
      = 1) := by
  refine ⟨rfl, rfl, by decide⟩

/-- Claim C5: when `auth.getUser()` resolves with an error, both variants of
`fetchUserProfile` return the absent result and issue no profile query (the
profile-query collaborator is arbitrary and the issued-query counter is 0). -/
theorem getUser_error_no_profile_query (e : Err) (u : Option User)
    (pq pq2 : String → Except Err ProfileQueryOut) :
    fetchUserProfileTs (Except.ok ⟨u, some e⟩) pq
      = (none, { eff0 with consoleWarnCalls := 1 }) ∧
    fetchUserProfileP0 (Except.ok ⟨u, some e⟩) pq2
      = (Except.ok none, eff0) := ⟨rfl, rfl⟩

/-- Claim C6, amended: the `supabaseService.ts` auth actions return outcome
objects whose error is the resolved error on success and the caught error on
a throw; the `part_000` login actions return no outcome at all and discard
resolved errors, and its `logout` returns an outcome only on the non-throwing
path.  None of the six propagates an exception. -/
theorem auth_outcomes_by_variant (e : Option Err) (ex : Err) :
    loginWithGithubTs (Except.ok e) = (⟨e⟩, eff0) ∧
    loginWithGithubTs (Except.error ex)
      = (⟨some ex⟩, { eff0 with handlerApiErrorCalls := 1 }) ∧
    loginWithLinkedInTs (Except.ok e) = (⟨e⟩, eff0) ∧
    loginWithLinkedInTs (Except.error ex)
      = (⟨some ex⟩, { eff0 with handlerApiErrorCalls := 1 }) ∧
    logoutTs (Except.ok e) = (⟨e⟩, eff0) ∧
    logoutTs (Except.error ex)
      = (⟨some ex⟩, { eff0 with handlerApiErrorCalls := 1 }) ∧
    loginWithGithubP0 (Except.ok e) = (none, eff0) ∧
    loginWithGithubP0 (Except.error ex)
      = (none, { eff0 with handlerApiErrorCalls := 1 }) ∧
    loginWithLinkedInP0 (Except.ok e) = (none, eff0) ∧
    loginWithLinkedInP0 (Except.error ex)
      = (none, { eff0 with handlerApiErrorCalls := 1 }) ∧
    logoutP0 (Except.ok e) = (some ⟨e⟩, eff0) ∧
    logoutP0 (Except.error ex)
      = (none, { eff0 with handlerApiErrorCalls := 1 }) :=
  ⟨rfl, rfl, rfl, rfl, rfl, rfl, rfl, rfl, rfl, rfl, rfl, rfl⟩

/-- Claim C6, counterexample: even when the auth collaborator resolves with a
populated error, the `part_000` login actions return no outcome object at
all, so the caller never sees an error field. -/
theorem login_p0_returns_no_outcome :
    (loginWithGithubP0 (Except.ok (some e0))).fst = none ∧
    (loginWithLinkedInP0 (Except.ok (some e0))).fst = none := ⟨rfl, rfl⟩

/-- Claim C7, amended: with limit 2, is_featured true and five featured
plans, `part_000` (ordering by price_monthly ascending) returns exactly the
two cheapest plans, while `supabaseService.ts` (ordering by name ascending)
returns the first two plans by name. -/
theorem limit2_featured_scenario :
    (fetchPricingPlansP0 ⟨some 2, some true⟩ (honestBackendP0 db5)).fst
      = [rowE, rowD] ∧
    (fetchPricingPlansP0 ⟨some 2, some true⟩ (honestBackendP0 db5)).fst.map
        PlanRow.price_monthly = [some 10, some 20] ∧
    (fetchPricingPlansTs ⟨some 2, some true⟩ (honestBackendTs db5)).fst
      = [planOfRow rowA, planOfRow rowB] := ⟨by decide, by decide, by decide⟩

/-- Claim C7, counterexample: in `supabaseService.ts` the query orders by
name, so with limit 2 and five featured plans the caller receives the plans
with monthly prices 50 and 40, not the two cheapest (10 and 20). -/
theorem ts_orders_by_name_not_price :
    (fetchPricingPlansTs ⟨some 2, some true⟩ (honestBackendTs db5)).fst.map
        PricingPlan.price_monthly = [50, 40] ∧
    ¬ ((fetchPricingPlansTs ⟨some 2, some true⟩ (honestBackendTs db5)).fst.map
        PricingPlan.price_monthly = [10, 20]) := ⟨by decide, by decide⟩

/-- Claim C8, amended: against an honest backend both variants return a
sequence of length at most the (defaulted) limit and never an absent value;
`supabaseService.ts` maps every row through the default coercion, which
fills every absent field with its safe default, while `part_000` returns the
backend rows unmodified. -/
theorem plans_length_and_defaults (opts : FetchPlansOptions)
    (db : List PlanRow) :
    (fetchPricingPlansTs opts (honestBackendTs db)).fst
      = (runPlansQuery (pricingQueryTs opts) db).map planOfRow ∧
    (fetchPricingPlansTs opts (honestBackendTs db)).fst.length
      ≤ opts.limit.getD 1000 ∧
    (fetchPricingPlansP0 opts (honestBackendP0 db)).fst
      = runPlansQuery (pricingQueryP0 opts) db ∧
    (fetchPricingPlansP0 opts (honestBackendP0 db)).fst.length
      ≤ opts.limit.getD 1000 ∧
    planOfRow blankRow
      = { id := ("Unknown"), name := ("Unknown"), slug := ("Unknown")
          , description := ("No description available")
          , cta := ("No CTA available")
          , most_popular := false, is_featured := false, pricing_features := []
          , price_monthly := 0, price_yearly := 0 } := by
  refine ⟨rfl, ?_, rfl, ?_, rfl⟩
  · show ((runPlansQuery (pricingQueryTs opts) db).map planOfRow).length
      ≤ opts.limit.getD 1000
    rw [List.length_map]
    exact runPlansQuery_length _ _
  · show (runPlansQuery (pricingQueryP0 opts) db).length ≤ opts.limit.getD 1000
    exact runPlansQuery_length _ _

/-- Claim C8, counterexample: `part_000` returns backend rows unmodified, so
a row with an absent description is returned with its description still
absent rather than populated with a default. -/
theorem raw_variant_keeps_absent_fields :
    (fetchPricingPlansP0 ⟨none, none⟩ (honestBackendP0 [cRow8])).fst
      = [cRow8] ∧
    cRow8.description = none := ⟨by decide, rfl⟩

/-- Claim C9: in `supabaseService.ts`, a profile row whose joined relation is
null is wrapped into a one-element array holding null, the `.map` over it
throws, and `fetchUserProfile` returns null having invoked the error
reporter exactly once (the console.log of the payload already happened). -/
theorem null_relation_throws_and_reports (u : User) (row : ProfileRow) :
    fetchUserProfileTs (Except.ok ⟨some u, none⟩)
        (fun _ => Except.ok ⟨some { row with pricing_plans := PPRel.nullv }, none⟩)
      = (none,
         { eff0 with
            handlerApiErrorCalls := 1
            , consoleLogCalls := 1
            , profileQueriesIssued := 1 }) := rfl

/-- Claim C10: in `supabaseService.ts`, a pricing-plans response with no
error but a null or non-array payload yields the empty sequence, logged via
console.error, with the shared error reporter not invoked and no throw. -/
theorem no_error_bad_payload_returns_empty (opts : FetchPlansOptions) :
    fetchPricingPlansTs opts (fun _ => Except.ok ⟨DataPayload.dnull, none⟩)
      = ([], { eff0 with consoleErrorCalls := 1 }) ∧
    fetchPricingPlansTs opts (fun _ => Except.ok ⟨DataPayload.dnonarray, none⟩)
      = ([], { eff0 with consoleErrorCalls := 1 }) := ⟨rfl, rfl⟩
